import Mathlib

/-!
Shallow embedding of `src/rktl_sim/simulator.py`, a two-car "car soccer"
simulator built on the pymunk physics engine.

Python floats are modelled by real numbers.  pymunk's `Vec2d` operations
are modelled on a pair of reals, following pymunk's semantics:
`length` is the Euclidean norm, `normalized` divides by the length unless
the length is zero (in which case it returns the zero vector), and
`apply_impulse_at_local_point` at the default local point adds
`impulse.rotated(body.angle) / body.mass` to the body's velocity and
leaves the angular velocity unchanged (the offset of the application
point from the center of gravity is zero).

The physics step `space.step(dt)` is external to the simulator's own
logic; where the run loop is modelled it is taken as an arbitrary
function acting on the bodies (ball and the two cars) only, since the
score pair, the walls flag and goal resets live outside the physics
space.
-/

noncomputable section

/-- A planar vector, modelling `pymunk.Vec2d`. -/
structure Vec2 where
  x : ℝ
  y : ℝ

def Vec2.add (v w : Vec2) : Vec2 := ⟨v.x + w.x, v.y + w.y⟩

def Vec2.smul (a : ℝ) (v : Vec2) : Vec2 := ⟨a * v.x, a * v.y⟩

/-- `Vec2d.length`, the Euclidean norm. -/
def Vec2.length (v : Vec2) : ℝ := Real.sqrt (v.x ^ 2 + v.y ^ 2)

/-- `Vec2d.normalized`: `v / v.length`, except the zero vector maps to
the zero vector (pymunk returns `Vec2d(0, 0)` when the length is 0). -/
def Vec2.normalized (v : Vec2) : Vec2 :=
  if Vec2.length v = 0 then ⟨0, 0⟩ else Vec2.smul (1 / Vec2.length v) v

/-- `Vec2d.rotated`: rotation by an angle in radians. -/
def Vec2.rotated (v : Vec2) (a : ℝ) : Vec2 :=
  ⟨v.x * Real.cos a - v.y * Real.sin a, v.x * Real.sin a + v.y * Real.cos a⟩

/-- 2-D cross product (the z-component of the 3-D cross product). -/
def Vec2.cross (v w : Vec2) : ℝ := v.x * w.y - v.y * w.x

/-- `math.radians`. -/
def radians (d : ℝ) : ℝ := d * Real.pi / 180

-- Constants of `simulator.py` (car, field, ball, sim limits).

def CAR_SIZE : ℝ × ℝ := (16.5, 8.5)

def CAR_MASS : ℝ := 5

def CAR_SPEED : ℝ := 5

def CAR_TURN : ℝ := 30

def BRAKE_SPEED : ℝ := 5

def FREE_DECELERATION : ℝ := 0.5

def FIELD_WIDTH : ℝ := 426.72

def FIELD_HEIGHT : ℝ := 304.8

def GOAL_HEIGHT : ℝ := 81.28

def GOAL_DEPTH : ℝ := 25.4

def SIDE_WALL : ℝ := (FIELD_HEIGHT - GOAL_HEIGHT) / 2

def BALL_MASS : ℝ := 0.1

def BALL_POS : ℝ × ℝ := ((FIELD_WIDTH + GOAL_DEPTH) / 2, FIELD_HEIGHT / 2)

def BALL_DECELERATION : ℝ := 0.1

def MAX_SPEED : ℝ := 200

/-- The `Ball` class: its pymunk body's position and velocity (the fields
the simulator logic reads and writes). -/
structure Ball where
  position : Vec2
  velocity : Vec2

/-- `Ball.__init__(x, y, space, impulse)`: the body starts at `(x, y)`
with zero velocity and receives `impulse` at the local origin of a body
with angle 0, i.e. velocity `impulse / BALL_MASS`. -/
def Ball.init (x y : ℝ) (impulse : Vec2) : Ball :=
  { position := ⟨x, y⟩, velocity := Vec2.smul (1 / BALL_MASS) impulse }

/-- `Ball.decelerate`:
`velocity = (velocity.length - BALL_DECELERATION) * velocity.normalized()`. -/
def Ball.decelerate (b : Ball) : Ball :=
  { b with velocity := Vec2.smul (Vec2.length b.velocity - BALL_DECELERATION) (Vec2.normalized b.velocity) }

-- Basic norm lemmas for the embedding.

theorem Vec2.length_nonneg (v : Vec2) : 0 ≤ v.length :=
  Real.sqrt_nonneg _

theorem Vec2.length_mk_x (a : ℝ) : Vec2.length ⟨a, 0⟩ = |a| := by
  show Real.sqrt (a ^ 2 + 0 ^ 2) = |a|
  rw [show a ^ 2 + 0 ^ 2 = a ^ 2 by ring, Real.sqrt_sq_eq_abs]

theorem Vec2.length_smul (a : ℝ) (v : Vec2) :
    (Vec2.smul a v).length = |a| * v.length := by
  show Real.sqrt ((a * v.x) ^ 2 + (a * v.y) ^ 2)
      = |a| * Real.sqrt (v.x ^ 2 + v.y ^ 2)
  rw [show (a * v.x) ^ 2 + (a * v.y) ^ 2 = a ^ 2 * (v.x ^ 2 + v.y ^ 2) by ring,
    Real.sqrt_mul (sq_nonneg a), Real.sqrt_sq_eq_abs]

/-- A concrete slow ball: speed `1/20 = 0.05`, below `BALL_DECELERATION`. -/
def ballSlow : Ball := { position := ⟨100, 100⟩, velocity := ⟨1 / 20, 0⟩ }

/-- Claim C1 (code bug).  The spec says the speed after `Ball.decelerate`
is `max(0, priorSpeed - BALL_DECELERATION)`, never negative, with the
direction preserved.  The code does not clamp: for the ball moving at
speed `1/20 < BALL_DECELERATION` along `+x`, the new velocity is
`(-1/20, 0)` — the direction is inverted and the speed is `1/20`, not the
`0` the spec requires. -/
theorem ball_decelerate_unclamped_inverts :
    (Ball.decelerate ballSlow).velocity = ⟨-(1 / 20), 0⟩ ∧
    (Ball.decelerate ballSlow).velocity.length ≠
      max 0 (ballSlow.velocity.length - BALL_DECELERATION) ∧
    (Ball.decelerate ballSlow).velocity.x < 0 ∧ 0 < ballSlow.velocity.x := by
  have hlen : Vec2.length ⟨1 / 20, 0⟩ = 1 / 20 := by
    rw [Vec2.length_mk_x]; norm_num
  have hvel : (Ball.decelerate ballSlow).velocity = ⟨-(1 / 20), 0⟩ := by
    show Vec2.smul (Vec2.length ⟨1 / 20, 0⟩ - BALL_DECELERATION)
        (Vec2.normalized ⟨1 / 20, 0⟩) = (⟨-(1 / 20), 0⟩ : Vec2)
    rw [Vec2.normalized, if_neg (by rw [hlen]; norm_num), hlen]
    simp only [Vec2.smul, BALL_DECELERATION, Vec2.mk.injEq]
    norm_num
  refine ⟨hvel, ?_, ?_, ?_⟩
  · rw [hvel]
    have h3 : Vec2.length ⟨-(1 / 20), 0⟩ = 1 / 20 := by
      rw [Vec2.length_mk_x]; norm_num
    have h4 : ballSlow.velocity.length = 1 / 20 := hlen
    rw [h3, h4, BALL_DECELERATION]
    norm_num
  · rw [hvel]; norm_num
  · show (0 : ℝ) < 1 / 20
    norm_num

/-- A concrete ball at rest. -/
def ballRest : Ball := { position := ⟨5, 5⟩, velocity := ⟨0, 0⟩ }

/-- Claim C8: `Ball.decelerate` on a ball with zero velocity is a no-op:
the zero vector normalizes to the zero vector (pymunk's guard), so the
velocity stays the zero vector and the ball is unchanged. -/
theorem ball_decelerate_zero_noop (b : Ball) (h : b.velocity = ⟨0, 0⟩) :
    Ball.decelerate b = b := by
  have hlen : Vec2.length b.velocity = 0 := by
    rw [h, Vec2.length_mk_x, abs_zero]
  unfold Ball.decelerate
  rw [Vec2.normalized, if_pos hlen]
  have hsm : Vec2.smul (Vec2.length b.velocity - BALL_DECELERATION) ⟨0, 0⟩
      = b.velocity := by
    rw [h]
    simp only [Vec2.smul, mul_zero]
  rw [hsm]

/-- Witness for C8 at the concrete ball at rest. -/
theorem ball_decelerate_zero_noop_at_rest :
    ballRest.velocity = ⟨0, 0⟩ ∧ Ball.decelerate ballRest = ballRest :=
  ⟨rfl, ball_decelerate_zero_noop ballRest rfl⟩

-- The Car class.

/-- The per-tick key snapshot `pygame.key.get_pressed()` as the simulator
reads it: the up/down/left/right/space keys. -/
structure Keys where
  up : Bool
  down : Bool
  left : Bool
  right : Bool
  space : Bool

/-- The `Car` class: its pymunk body's position, velocity, angle and
angular velocity, plus the `steering` and `reverse` attributes. -/
structure Car where
  position : Vec2
  velocity : Vec2
  angle : ℝ
  angular_velocity : ℝ
  steering : ℝ
  reverse : ℤ

/-- `Car.__init__(x, y, space, angle)`: body at `(x, y)` with angle
`radians(angle)`, fresh body velocity zero, `steering = 0.0`,
`reverse = 1`. -/
def Car.init (x y a : ℝ) : Car :=
  { position := ⟨x, y⟩, velocity := ⟨0, 0⟩, angle := radians a,
    angular_velocity := 0, steering := 0, reverse := 1 }

/-- `body.apply_impulse_at_local_point(j)` at the default local point
`(0, 0)`: the velocity gains `j.rotated(angle) / CAR_MASS`; the angular
velocity is unchanged (zero offset from the center of gravity). -/
def Car.applyImpulseLocal (c : Car) (j : Vec2) : Car :=
  { c with velocity := Vec2.add c.velocity (Vec2.smul (1 / CAR_MASS) (Vec2.rotated j c.angle)) }

/-- Line 70: `forward_direction = Vec2d(cos(angle), sin(angle))`. -/
def Car.forwardDirection (c : Car) : Vec2 :=
  ⟨Real.cos c.angle, Real.sin c.angle⟩

/-- Line 72: `impulse = Vec2d(1, 0) * CAR_SPEED`. -/
def carImpulse : Vec2 := ⟨CAR_SPEED, 0⟩

/-- The throttle branch of `Car.update` (lines 73-97) without the
`reverse` assignments: forward/backward/handbrake impulses, and the
free-deceleration velocity overwrite of the idle branch. -/
def Car.throttleImpulse (keys : Keys) (c : Car) : Car :=
  if keys.up then
    (if c.reverse = 1 then Car.applyImpulseLocal c carImpulse
     else Car.applyImpulseLocal c (Vec2.smul BRAKE_SPEED carImpulse))
  else if keys.down then
    (if c.reverse = -1 then Car.applyImpulseLocal c (Vec2.smul (-1) carImpulse)
     else Car.applyImpulseLocal c (Vec2.smul (-BRAKE_SPEED) carImpulse))
  else if keys.space then
    (if c.reverse = -1 then Car.applyImpulseLocal c (Vec2.smul BRAKE_SPEED carImpulse)
     else if c.reverse = 1 then Car.applyImpulseLocal c (Vec2.smul (-BRAKE_SPEED) carImpulse)
     else c)
  else
    { c with velocity := Vec2.smul ((Vec2.length c.velocity - FREE_DECELERATION) * (c.reverse : ℝ)) (Car.forwardDirection c) }

/-- Lines 78-79 and 87-88: after the up (resp. down) impulse, `reverse`
is set to `1` (resp. `-1`) when the post-impulse speed is below 5. -/
def Car.updateReverse (keys : Keys) (c : Car) : Car :=
  if keys.up then
    (if Vec2.length c.velocity < 5 then { c with reverse := 1 } else c)
  else if keys.down then
    (if Vec2.length c.velocity < 5 then { c with reverse := -1 } else c)
  else c

/-- Line 100: `turning_radius = CAR_SIZE[0] / sin(radians(CAR_TURN))`. -/
def turningRadius : ℝ := CAR_SIZE.1 / Real.sin (radians CAR_TURN)

/-- Lines 101-106: set the angular velocity from the current speed, the
turning radius and `reverse`. -/
def Car.turnStep (keys : Keys) (c : Car) : Car :=
  if keys.left then
    { c with angular_velocity := Vec2.length c.velocity / (-turningRadius) * (c.reverse : ℝ) }
  else if keys.right then
    { c with angular_velocity := Vec2.length c.velocity / turningRadius * (c.reverse : ℝ) }
  else
    { c with angular_velocity := 0 }

/-- Line 109, drift cancellation:
`velocity = forward_direction * reverse * min(velocity.length, MAX_SPEED)`,
where `fd` is the forward direction computed at line 70. -/
def Car.driftCancel (fd : Vec2) (c : Car) : Car :=
  { c with velocity := Vec2.smul ((c.reverse : ℝ) * min (Vec2.length c.velocity) MAX_SPEED) fd }

/-- `Car.update(keys)`: the throttle branch (impulses or idle
deceleration, with the below-5 `reverse` checks on the post-impulse
speed), then turning, then drift cancellation.  The body's angle is not
written during `update`, so the forward direction of line 70 is that of
the car's (unchanged) angle. -/
def Car.update (keys : Keys) (c : Car) : Car :=
  Car.driftCancel (Car.forwardDirection c)
    (Car.turnStep keys (Car.updateReverse keys (Car.throttleImpulse keys c)))

/-- A sequence of `update` calls. -/
def Car.updates (ks : List Keys) (c : Car) : Car :=
  ks.foldl (fun a k => Car.update k a) c

-- Frame lemmas: which fields each phase leaves unchanged.

theorem Car.throttleImpulse_reverse (keys : Keys) (c : Car) :
    (Car.throttleImpulse keys c).reverse = c.reverse := by
  unfold Car.throttleImpulse
  repeat' split
  all_goals rfl

theorem Car.updateReverse_velocity (keys : Keys) (c : Car) :
    (Car.updateReverse keys c).velocity = c.velocity := by
  unfold Car.updateReverse
  repeat' split
  all_goals rfl

theorem Car.turnStep_reverse (keys : Keys) (c : Car) :
    (Car.turnStep keys c).reverse = c.reverse := by
  unfold Car.turnStep
  repeat' split
  all_goals rfl

theorem Car.turnStep_velocity (keys : Keys) (c : Car) :
    (Car.turnStep keys c).velocity = c.velocity := by
  unfold Car.turnStep
  repeat' split
  all_goals rfl

/-- The final `reverse` is the one the below-5 check produced. -/
theorem Car.update_reverse (keys : Keys) (c : Car) :
    (Car.update keys c).reverse
      = (Car.updateReverse keys (Car.throttleImpulse keys c)).reverse := by
  show (Car.turnStep keys (Car.updateReverse keys (Car.throttleImpulse keys c))).reverse = _
  exact Car.turnStep_reverse _ _

/-- The final velocity is the drift-cancel overwrite of line 109. -/
theorem Car.update_velocity (keys : Keys) (c : Car) :
    (Car.update keys c).velocity
      = Vec2.smul
          (((Car.turnStep keys (Car.updateReverse keys (Car.throttleImpulse keys c))).reverse : ℝ)
            * min (Vec2.length (Car.turnStep keys (Car.updateReverse keys (Car.throttleImpulse keys c))).velocity) MAX_SPEED)
          (Car.forwardDirection c) := rfl

/-- The `reverse` attribute is a direction flag: `+1` or `-1`. -/
def Car.reverseOK (c : Car) : Prop := c.reverse = 1 ∨ c.reverse = -1

theorem Car.reverseOK_updateReverse (keys : Keys) (c : Car) (h : c.reverseOK) :
    (Car.updateReverse keys c).reverseOK := by
  unfold Car.updateReverse
  repeat' split
  all_goals first
    | exact h
    | exact Or.inl rfl
    | exact Or.inr rfl

theorem Car.reverseOK_update (keys : Keys) (c : Car) (h : c.reverseOK) :
    (Car.update keys c).reverseOK := by
  have h1 : (Car.throttleImpulse keys c).reverseOK := by
    unfold Car.reverseOK at h ⊢
    rw [Car.throttleImpulse_reverse]
    exact h
  have h2 := Car.reverseOK_updateReverse keys _ h1
  unfold Car.reverseOK at h2 ⊢
  rw [Car.update_reverse]
  exact h2

theorem Car.reverseOK_updates (ks : List Keys) (c : Car) (h : c.reverseOK) :
    (Car.updates ks c).reverseOK := by
  induction ks generalizing c with
  | nil => exact h
  | cons k ks ih => exact ih _ (Car.reverseOK_update k c h)

-- More norm lemmas and concrete inputs.

theorem Car.length_forwardDirection (c : Car) :
    Vec2.length (Car.forwardDirection c) = 1 := by
  show Real.sqrt (Real.cos c.angle ^ 2 + Real.sin c.angle ^ 2) = 1
  rw [Real.cos_sq_add_sin_sq, Real.sqrt_one]

theorem Vec2.cross_smul_self (a : ℝ) (v : Vec2) :
    Vec2.cross (Vec2.smul a v) v = 0 := by
  show a * v.x * v.y - a * v.y * v.x = 0
  ring

/-- No key held. -/
def keysNone : Keys :=
  { up := false, down := false, left := false, right := false, space := false }

/-- Only the up key held. -/
def keysUp : Keys :=
  { up := true, down := false, left := false, right := false, space := false }

theorem Car.updateReverse_none (c : Car) : Car.updateReverse keysNone c = c := by
  simp [Car.updateReverse, keysNone]

/-- Claim C10: for every car constructed by `Car.__init__` and every
sequence of `update` calls with any inputs, `reverse` is `+1` or `-1`:
it starts at `+1` and the only assignments write `+1` or `-1`. -/
theorem car_reverse_always_pm_one :
    (∀ x y a : ℝ, (Car.init x y a).reverse = 1) ∧
    (∀ (ks : List Keys) (x y a : ℝ), (Car.updates ks (Car.init x y a)).reverseOK) := by
  refine ⟨fun x y a => rfl, fun ks x y a => ?_⟩
  exact Car.reverseOK_updates ks _ (Or.inl rfl)

/-- What line 109 guarantees for a unit forward direction and a valid
`reverse` flag: the final velocity is `reverse`-signed along `fd`, with
magnitude `min(speed, MAX_SPEED)` — in particular at most `MAX_SPEED`
and with zero cross product against `fd`. -/
theorem Car.driftCancel_spec (fd : Vec2) (hfd : Vec2.length fd = 1) (c : Car)
    (h : c.reverseOK) :
    ∃ s : ℝ, 0 ≤ s ∧ s ≤ MAX_SPEED ∧
      (Car.driftCancel fd c).velocity
        = Vec2.smul (((Car.driftCancel fd c).reverse : ℝ) * s) fd ∧
      Vec2.cross (Car.driftCancel fd c).velocity fd = 0 ∧
      Vec2.length (Car.driftCancel fd c).velocity ≤ MAX_SPEED := by
  have hvel : (Car.driftCancel fd c).velocity
      = Vec2.smul ((c.reverse : ℝ) * min (Vec2.length c.velocity) MAX_SPEED) fd := rfl
  have hrev : (Car.driftCancel fd c).reverse = c.reverse := rfl
  refine ⟨min (Vec2.length c.velocity) MAX_SPEED,
    le_min (Vec2.length_nonneg _) (by rw [MAX_SPEED]; norm_num),
    min_le_right _ _, ?_, ?_, ?_⟩
  · rw [hvel, hrev]
  · rw [hvel]; exact Vec2.cross_smul_self _ _
  · rw [hvel, Vec2.length_smul, hfd, mul_one, abs_mul]
    have h1 : |((c.reverse : ℤ) : ℝ)| = 1 := by
      rcases h with h2 | h2 <;> rw [h2] <;> norm_num
    rw [h1, one_mul,
      abs_of_nonneg (le_min (Vec2.length_nonneg _) (by rw [MAX_SPEED]; norm_num))]
    exact min_le_right _ _

/-- Claim C3: after every `Car.update`, for a car whose `reverse` flag is
valid (`+1` or `-1`, the invariant of C10), the velocity is
`forwardDirection * reverse * min(speed, MAX_SPEED)`: a signed multiple
of the forward direction with zero cross product (no lateral slip) and
magnitude at most `MAX_SPEED`. -/
theorem car_update_drift_cancelled (keys : Keys) (c : Car) (h : c.reverseOK) :
    ∃ s : ℝ, 0 ≤ s ∧ s ≤ MAX_SPEED ∧
      (Car.update keys c).velocity
        = Vec2.smul (((Car.update keys c).reverse : ℝ) * s) (Car.forwardDirection c) ∧
      Vec2.cross (Car.update keys c).velocity (Car.forwardDirection c) = 0 ∧
      Vec2.length (Car.update keys c).velocity ≤ MAX_SPEED := by
  have h1 : (Car.throttleImpulse keys c).reverseOK := by
    unfold Car.reverseOK at h ⊢
    rw [Car.throttleImpulse_reverse]
    exact h
  have h2 := Car.reverseOK_updateReverse keys _ h1
  have h3 : (Car.turnStep keys (Car.updateReverse keys (Car.throttleImpulse keys c))).reverseOK := by
    unfold Car.reverseOK at h2 ⊢
    rw [Car.turnStep_reverse]
    exact h2
  exact Car.driftCancel_spec _ (Car.length_forwardDirection c) _ h3

/-- A concrete car cruising forward along `+x` at speed 3. -/
def carStraight : Car :=
  { position := ⟨0, 0⟩, velocity := ⟨3, 0⟩, angle := 0,
    angular_velocity := 0, steering := 0, reverse := 1 }

/-- Witness for C3 at a concrete car and input. -/
theorem car_update_drift_cancelled_at_input :
    carStraight.reverseOK ∧
    (∃ s : ℝ, 0 ≤ s ∧ s ≤ MAX_SPEED ∧
      (Car.update keysNone carStraight).velocity
        = Vec2.smul (((Car.update keysNone carStraight).reverse : ℝ) * s)
            (Car.forwardDirection carStraight) ∧
      Vec2.cross (Car.update keysNone carStraight).velocity
        (Car.forwardDirection carStraight) = 0 ∧
      Vec2.length (Car.update keysNone carStraight).velocity ≤ MAX_SPEED) :=
  ⟨Or.inl rfl, car_update_drift_cancelled keysNone carStraight (Or.inl rfl)⟩

/-- A concrete car moving backward along `-x` at speed 6, with
`reverse = -1`. -/
def carReversing : Car :=
  { position := ⟨0, 0⟩, velocity := ⟨-6, 0⟩, angle := 0,
    angular_velocity := 0, steering := 0, reverse := -1 }

/-- Counterexample for C2 as stated.  The pre-update speed is 6, not
below 5, yet one `update` with the up key held flips `reverse` from `-1`
to `1`: the braking impulse (`5 * CAR_SPEED / CAR_MASS = 5` along `+x`)
drops the speed to 1 and the below-5 check reads that post-impulse
speed, not the pre-update one. -/
theorem car_reverse_flips_at_speed_six :
    Vec2.length carReversing.velocity = 6 ∧
    ¬ Vec2.length carReversing.velocity < 5 ∧
    carReversing.reverse = -1 ∧
    (Car.update keysUp carReversing).reverse = 1 := by
  have hl6 : Vec2.length carReversing.velocity = 6 := by
    show Vec2.length ⟨-6, 0⟩ = 6
    rw [Vec2.length_mk_x]
    norm_num
  have hv : (Car.throttleImpulse keysUp carReversing).velocity = ⟨-1, 0⟩ := by
    norm_num [Car.throttleImpulse, keysUp, carReversing, Car.applyImpulseLocal,
      carImpulse, Vec2.rotated, Vec2.smul, Vec2.add, BRAKE_SPEED, CAR_SPEED,
      CAR_MASS, Real.cos_zero, Real.sin_zero, Vec2.mk.injEq]
  have hlt : Vec2.length (Car.throttleImpulse keysUp carReversing).velocity < 5 := by
    rw [hv, Vec2.length_mk_x]
    norm_num
  have hr : (Car.update keysUp carReversing).reverse = 1 := by
    rw [Car.update_reverse]
    unfold Car.updateReverse
    rw [if_pos (show keysUp.up = true from rfl), if_pos hlt]
  exact ⟨hl6, by rw [hl6]; norm_num, rfl, hr⟩

/-- Claim C2 amended: `reverse` changes value only when the speed
immediately after the throttle impulse (the value the checks at lines 78
and 87 read) is below 5; when that post-impulse speed is at least 5,
`update` leaves `reverse` unchanged. -/
theorem car_reverse_stable_when_fast (keys : Keys) (c : Car)
    (h : ¬ Vec2.length (Car.throttleImpulse keys c).velocity < 5) :
    (Car.update keys c).reverse = c.reverse := by
  rw [Car.update_reverse]
  unfold Car.updateReverse
  simp only [if_neg h, ite_self]
  exact Car.throttleImpulse_reverse keys c

/-- A concrete car cruising forward along `+x` at speed 6. -/
def carCruise : Car :=
  { position := ⟨0, 0⟩, velocity := ⟨6, 0⟩, angle := 0,
    angular_velocity := 0, steering := 0, reverse := 1 }

/-- Witness for the amended C2: idle input at speed 6 leaves the
post-throttle speed at 5.5, so `reverse` keeps its value. -/
theorem car_reverse_stable_when_fast_at_input :
    ¬ Vec2.length (Car.throttleImpulse keysNone carCruise).velocity < 5 ∧
    (Car.update keysNone carCruise).reverse = carCruise.reverse := by
  have hv : (Car.throttleImpulse keysNone carCruise).velocity = ⟨11 / 2, 0⟩ := by
    have h6 : Vec2.length (⟨6, 0⟩ : Vec2) = 6 := by
      rw [Vec2.length_mk_x]; norm_num
    norm_num [Car.throttleImpulse, keysNone, carCruise, Car.forwardDirection,
      Vec2.smul, h6, FREE_DECELERATION, Real.cos_zero, Real.sin_zero,
      Vec2.mk.injEq]
  have h : ¬ Vec2.length (Car.throttleImpulse keysNone carCruise).velocity < 5 := by
    rw [hv, Vec2.length_mk_x, abs_of_nonneg (by norm_num : (0 : ℝ) ≤ 11 / 2)]
    norm_num
  exact ⟨h, car_reverse_stable_when_fast keysNone carCruise h⟩

/-- A concrete car creeping forward along `+x` at speed `1/5`, below
`FREE_DECELERATION = 1/2`. -/
def carCreep : Car :=
  { position := ⟨0, 0⟩, velocity := ⟨1 / 5, 0⟩, angle := 0,
    angular_velocity := 0, steering := 0, reverse := 1 }

/-- Claim C4 (code bug).  The spec requires the idle-tick speed to be
`max(0, priorSpeed - FREE_DECELERATION)` (clamped at zero; the spec's §9
calls the source's unclamped behavior a latent bug).  With idle input at
prior speed `1/5 < FREE_DECELERATION`, the code's speed afterwards is
`3/10`, not the required `0`: line 97 multiplies the negative
`speed - FREE_DECELERATION` into the direction and line 109 then takes
the magnitude, so the car speeds back up instead of stopping. -/
theorem car_idle_decel_unclamped :
    Vec2.length carCreep.velocity = 1 / 5 ∧
    Vec2.length (Car.update keysNone carCreep).velocity = 3 / 10 ∧
    max 0 (Vec2.length carCreep.velocity - FREE_DECELERATION) = 0 := by
  have h5 : Vec2.length carCreep.velocity = 1 / 5 := by
    show Vec2.length ⟨1 / 5, 0⟩ = 1 / 5
    rw [Vec2.length_mk_x]
    norm_num
  have h1 : (Car.throttleImpulse keysNone carCreep).velocity = ⟨-(3 / 10), 0⟩ := by
    have h15 : Vec2.length (⟨1 / 5, 0⟩ : Vec2) = 1 / 5 := by
      rw [Vec2.length_mk_x]; norm_num
    norm_num [Car.throttleImpulse, keysNone, carCreep, Car.forwardDirection,
      Vec2.smul, h15, FREE_DECELERATION, Real.cos_zero, Real.sin_zero,
      Vec2.mk.injEq]
  have h4 : (Car.update keysNone carCreep).velocity = ⟨3 / 10, 0⟩ := by
    rw [Car.update_velocity, Car.turnStep_reverse, Car.turnStep_velocity,
      Car.updateReverse_none, Car.throttleImpulse_reverse, h1]
    have hl : Vec2.length (⟨-(3 / 10), 0⟩ : Vec2) = 3 / 10 := by
      rw [Vec2.length_mk_x]; norm_num
    rw [hl]
    norm_num [carCreep, Car.forwardDirection, Vec2.smul, min_def, MAX_SPEED,
      Real.cos_zero, Real.sin_zero, Vec2.mk.injEq]
  refine ⟨h5, ?_, ?_⟩
  · rw [h4, Vec2.length_mk_x]
    norm_num
  · rw [h5, FREE_DECELERATION]
    norm_num [max_def]

-- The Game class.

/-- The `Game` state the core logic reads and writes: the score pair,
the walls flag, the ball and the two cars, plus a count of `reset()`
invocations (ghost instrumentation; `reset` itself only swaps the
objects in play for fresh spawn-pose ones). -/
structure Game where
  leftscore : ℕ
  rightscore : ℕ
  walls : Bool
  ball : Ball
  cars : Car × Car
  resets : ℕ

/-- The ball `addObjects` creates: at `BALL_POS`, default zero impulse. -/
def spawnBall : Ball := Ball.init BALL_POS.1 BALL_POS.2 ⟨0, 0⟩

/-- The first car `addObjects` creates: one third of the way across,
facing 0 degrees. -/
def spawnCar1 : Car := Car.init ((FIELD_WIDTH + GOAL_DEPTH) / 3) (FIELD_HEIGHT / 2) 0

/-- The second car `addObjects` creates: two thirds across, offset +50
in y, facing 180 degrees. -/
def spawnCar2 : Car := Car.init (2 * (FIELD_WIDTH + GOAL_DEPTH) / 3) (FIELD_HEIGHT / 2 + 50) 180

/-- `Game.reset`: removes the ball and car bodies from the space and
calls `addObjects`, which builds fresh objects at the spawn poses.  The
scores and the walls flag are untouched; the invocation counter
increments. -/
def Game.reset (g : Game) : Game :=
  { g with ball := spawnBall, cars := (spawnCar1, spawnCar2), resets := g.resets + 1 }

/-- `Game.checkGoal(ball, leftgoal, rightgoal, topgoal, botgoal)`:
score and reset when the ball is past a goal line. -/
def Game.checkGoal (g : Game) (leftgoal rightgoal topgoal botgoal : ℝ) : Game :=
  if g.ball.position.x < leftgoal then
    Game.reset (if topgoal < g.ball.position.y ∧ g.ball.position.y < botgoal then { g with rightscore := g.rightscore + 1 } else g)
  else if g.ball.position.x > rightgoal then
    Game.reset (if topgoal < g.ball.position.y ∧ g.ball.position.y < botgoal then { g with leftscore := g.leftscore + 1 } else g)
  else g

/-- Lines 240-242 of the loop body: both cars update with the pressed
keys and the ball decelerates. -/
def Game.stepObjects (keys : Keys) (g : Game) : Game :=
  { g with ball := Ball.decelerate g.ball, cars := (Car.update keys g.cars.1, Car.update keys g.cars.2) }

/-- One iteration of the logic portion of `Game.run`'s loop: both cars
update with the pressed keys, the ball decelerates, goal checking runs
only when walls are enabled (with the goal lines and goal-mouth bounds
passed at line 244), and then the external physics step `phys` advances
the bodies — and only the bodies. -/
def Game.tick (keys : Keys) (phys : Ball → Car → Car → Ball × Car × Car) (g : Game) : Game :=
  let g1 : Game := Game.stepObjects keys g
  let g2 : Game := if g.walls then Game.checkGoal g1 GOAL_DEPTH FIELD_WIDTH SIDE_WALL (SIDE_WALL + GOAL_HEIGHT) else g1
  let r := phys g2.ball g2.cars.1 g2.cars.2
  { g2 with ball := r.1, cars := (r.2.1, r.2.2) }

/-- A sequence of loop iterations, one `(keys, phys)` pair each. -/
def Game.ticks (steps : List (Keys × (Ball → Car → Car → Ball × Car × Car))) (g : Game) : Game :=
  steps.foldl (fun a s => Game.tick s.1 s.2 a) g

theorem Game.ticks_cons (s : Keys × (Ball → Car → Car → Ball × Car × Car))
    (ss : List (Keys × (Ball → Car → Car → Ball × Car × Car))) (g : Game) :
    Game.ticks (s :: ss) g = Game.ticks ss (Game.tick s.1 s.2 g) := rfl

theorem Game.reset_walls (g : Game) : (Game.reset g).walls = g.walls := rfl

theorem Game.checkGoal_walls (g : Game) (lg rg tg bg : ℝ) :
    (Game.checkGoal g lg rg tg bg).walls = g.walls := by
  unfold Game.checkGoal
  by_cases h1 : g.ball.position.x < lg
  · rw [if_pos h1, Game.reset_walls]
    by_cases h2 : tg < g.ball.position.y ∧ g.ball.position.y < bg
    · rw [if_pos h2]
    · rw [if_neg h2]
  · rw [if_neg h1]
    by_cases h2 : g.ball.position.x > rg
    · rw [if_pos h2, Game.reset_walls]
      by_cases h3 : tg < g.ball.position.y ∧ g.ball.position.y < bg
      · rw [if_pos h3]
      · rw [if_neg h3]
    · rw [if_neg h2]

theorem Game.checkGoal_left_mono (g : Game) (lg rg tg bg : ℝ) :
    g.leftscore ≤ (Game.checkGoal g lg rg tg bg).leftscore := by
  unfold Game.checkGoal
  by_cases h1 : g.ball.position.x < lg
  · rw [if_pos h1]
    by_cases h2 : tg < g.ball.position.y ∧ g.ball.position.y < bg
    · rw [if_pos h2]
      exact le_refl g.leftscore
    · rw [if_neg h2]
      exact le_refl g.leftscore
  · rw [if_neg h1]
    by_cases h2 : g.ball.position.x > rg
    · rw [if_pos h2]
      by_cases h3 : tg < g.ball.position.y ∧ g.ball.position.y < bg
      · rw [if_pos h3]
        exact Nat.le_succ _
      · rw [if_neg h3]
        exact le_refl g.leftscore
    · rw [if_neg h2]

theorem Game.checkGoal_right_mono (g : Game) (lg rg tg bg : ℝ) :
    g.rightscore ≤ (Game.checkGoal g lg rg tg bg).rightscore := by
  unfold Game.checkGoal
  by_cases h1 : g.ball.position.x < lg
  · rw [if_pos h1]
    by_cases h2 : tg < g.ball.position.y ∧ g.ball.position.y < bg
    · rw [if_pos h2]
      exact Nat.le_succ _
    · rw [if_neg h2]
      exact le_refl g.rightscore
  · rw [if_neg h1]
    by_cases h2 : g.ball.position.x > rg
    · rw [if_pos h2]
      by_cases h3 : tg < g.ball.position.y ∧ g.ball.position.y < bg
      · rw [if_pos h3]
        exact le_refl g.rightscore
      · rw [if_neg h3]
        exact le_refl g.rightscore
    · rw [if_neg h2]

theorem Game.tick_walls (keys : Keys) (phys : Ball → Car → Car → Ball × Car × Car) (g : Game) :
    (Game.tick keys phys g).walls = g.walls := by
  simp only [Game.tick]
  by_cases hw : g.walls = true
  · rw [if_pos hw]
    exact Game.checkGoal_walls (Game.stepObjects keys g) GOAL_DEPTH FIELD_WIDTH SIDE_WALL (SIDE_WALL + GOAL_HEIGHT)
  · rw [if_neg hw]
    rfl

theorem Game.tick_left_mono (keys : Keys) (phys : Ball → Car → Car → Ball × Car × Car) (g : Game) :
    g.leftscore ≤ (Game.tick keys phys g).leftscore := by
  simp only [Game.tick]
  by_cases hw : g.walls = true
  · rw [if_pos hw]
    exact Game.checkGoal_left_mono (Game.stepObjects keys g) GOAL_DEPTH FIELD_WIDTH SIDE_WALL (SIDE_WALL + GOAL_HEIGHT)
  · rw [if_neg hw]
    exact le_refl g.leftscore

theorem Game.tick_right_mono (keys : Keys) (phys : Ball → Car → Car → Ball × Car × Car) (g : Game) :
    g.rightscore ≤ (Game.tick keys phys g).rightscore := by
  simp only [Game.tick]
  by_cases hw : g.walls = true
  · rw [if_pos hw]
    exact Game.checkGoal_right_mono (Game.stepObjects keys g) GOAL_DEPTH FIELD_WIDTH SIDE_WALL (SIDE_WALL + GOAL_HEIGHT)
  · rw [if_neg hw]
    exact le_refl g.rightscore

theorem Game.tick_nowalls (keys : Keys) (phys : Ball → Car → Car → Ball × Car × Car)
    (g : Game) (hw : g.walls = false) :
    (Game.tick keys phys g).leftscore = g.leftscore ∧
    (Game.tick keys phys g).rightscore = g.rightscore ∧
    (Game.tick keys phys g).resets = g.resets := by
  have hw2 : ¬ g.walls = true := by rw [hw]; exact Bool.false_ne_true
  simp only [Game.tick]
  rw [if_neg hw2]
  exact ⟨rfl, rfl, rfl⟩

/-- Claim C5: `checkGoal` with the ball past the left goal line
increments `rightscore` exactly when the ball's y lies strictly between
the goal-mouth bounds, leaves `leftscore` alone, and resets once
regardless of y; symmetrically past the right goal line; and between
the goal lines it changes nothing. -/
theorem checkGoal_scores_and_resets (g : Game) (lg rg tg bg : ℝ) :
    (g.ball.position.x < lg →
      (Game.checkGoal g lg rg tg bg).rightscore
        = (if tg < g.ball.position.y ∧ g.ball.position.y < bg then g.rightscore + 1 else g.rightscore) ∧
      (Game.checkGoal g lg rg tg bg).leftscore = g.leftscore ∧
      (Game.checkGoal g lg rg tg bg).resets = g.resets + 1) ∧
    (¬ g.ball.position.x < lg → g.ball.position.x > rg →
      (Game.checkGoal g lg rg tg bg).leftscore
        = (if tg < g.ball.position.y ∧ g.ball.position.y < bg then g.leftscore + 1 else g.leftscore) ∧
      (Game.checkGoal g lg rg tg bg).rightscore = g.rightscore ∧
      (Game.checkGoal g lg rg tg bg).resets = g.resets + 1) ∧
    (¬ g.ball.position.x < lg → ¬ g.ball.position.x > rg →
      Game.checkGoal g lg rg tg bg = g) := by
  refine ⟨fun h1 => ?_, fun h1 h2 => ?_, fun h1 h2 => ?_⟩
  · unfold Game.checkGoal
    by_cases hy : tg < g.ball.position.y ∧ g.ball.position.y < bg
    · simp only [if_pos h1, if_pos hy]
      exact ⟨rfl, rfl, rfl⟩
    · simp only [if_pos h1, if_neg hy]
      exact ⟨rfl, rfl, rfl⟩
  · unfold Game.checkGoal
    by_cases hy : tg < g.ball.position.y ∧ g.ball.position.y < bg
    · simp only [if_neg h1, if_pos h2, if_pos hy]
      exact ⟨rfl, rfl, rfl⟩
    · simp only [if_neg h1, if_pos h2, if_neg hy]
      exact ⟨rfl, rfl, rfl⟩
  · unfold Game.checkGoal
    rw [if_neg h1, if_neg h2]

/-- Claim C6: with walls disabled, no sequence of loop iterations — for
any key inputs, any physics steps and hence any ball positions, even
beyond either goal line — ever changes a score or invokes `reset`. -/
theorem no_walls_no_scoring (g : Game)
    (steps : List (Keys × (Ball → Car → Car → Ball × Car × Car)))
    (hw : g.walls = false) :
    (Game.ticks steps g).leftscore = g.leftscore ∧
    (Game.ticks steps g).rightscore = g.rightscore ∧
    (Game.ticks steps g).resets = g.resets := by
  revert g
  induction steps with
  | nil => exact fun g hw => ⟨rfl, rfl, rfl⟩
  | cons s ss ih =>
    intro g hw
    have hw2 : (Game.tick s.1 s.2 g).walls = false := by
      rw [Game.tick_walls, hw]
    obtain ⟨a, b, c⟩ := ih (Game.tick s.1 s.2 g) hw2
    obtain ⟨d, e, f⟩ := Game.tick_nowalls s.1 s.2 g hw
    rw [Game.ticks_cons]
    exact ⟨by rw [a, d], by rw [b, e], by rw [c, f]⟩

/-- A concrete no-walls game with the ball far beyond the right goal
line (`x = 500 > FIELD_WIDTH`). -/
def gameNoWalls : Game :=
  { leftscore := 3, rightscore := 4, walls := false,
    ball := { position := ⟨500, 150⟩, velocity := ⟨0, 0⟩ },
    cars := (spawnCar1, spawnCar2), resets := 0 }

/-- The identity physics step. -/
def physId : Ball → Car → Car → Ball × Car × Car := fun b c1 c2 => (b, c1, c2)

/-- Witness for C6 at a concrete no-walls game and a one-iteration run. -/
theorem no_walls_no_scoring_at_input :
    gameNoWalls.walls = false ∧
    ((Game.ticks [(keysNone, physId)] gameNoWalls).leftscore = gameNoWalls.leftscore ∧
     (Game.ticks [(keysNone, physId)] gameNoWalls).rightscore = gameNoWalls.rightscore ∧
     (Game.ticks [(keysNone, physId)] gameNoWalls).resets = gameNoWalls.resets) :=
  ⟨rfl, no_walls_no_scoring gameNoWalls [(keysNone, physId)] rfl⟩

/-- Claim C7: both scores are non-decreasing across any sequence of loop
iterations, and `reset` leaves both scores exactly unchanged — it only
puts the ball and the cars back at their spawn poses. -/
theorem scores_monotone_and_reset_keeps_scores :
    (∀ (g : Game) (steps : List (Keys × (Ball → Car → Car → Ball × Car × Car))),
      g.leftscore ≤ (Game.ticks steps g).leftscore ∧
      g.rightscore ≤ (Game.ticks steps g).rightscore) ∧
    (∀ g : Game,
      (Game.reset g).leftscore = g.leftscore ∧
      (Game.reset g).rightscore = g.rightscore ∧
      (Game.reset g).ball = spawnBall ∧
      (Game.reset g).cars = (spawnCar1, spawnCar2)) := by
  constructor
  · intro g steps
    induction steps generalizing g with
    | nil => exact ⟨le_refl _, le_refl _⟩
    | cons s ss ih =>
      rw [Game.ticks_cons]
      obtain ⟨a, b⟩ := ih (Game.tick s.1 s.2 g)
      exact ⟨le_trans (Game.tick_left_mono _ _ _) a,
        le_trans (Game.tick_right_mono _ _ _) b⟩
  · intro g
    exact ⟨rfl, rfl, rfl, rfl⟩

/-- Claim C9: `reset` puts the ball and the two cars at the fixed spawn
poses (ball at the field-center spawn, one car a third of the way across
facing 0 degrees, the other two thirds across offset +50 in y facing 180
degrees), so resetting twice in a row leaves exactly the poses a single
reset produces. -/
theorem reset_idempotent_poses (g : Game) :
    (Game.reset g).ball.position = ⟨(FIELD_WIDTH + GOAL_DEPTH) / 2, FIELD_HEIGHT / 2⟩ ∧
    (Game.reset g).cars.1.position = ⟨(FIELD_WIDTH + GOAL_DEPTH) / 3, FIELD_HEIGHT / 2⟩ ∧
    (Game.reset g).cars.1.angle = radians 0 ∧
    (Game.reset g).cars.2.position = ⟨2 * (FIELD_WIDTH + GOAL_DEPTH) / 3, FIELD_HEIGHT / 2 + 50⟩ ∧
    (Game.reset g).cars.2.angle = radians 180 ∧
    (Game.reset (Game.reset g)).ball.position = (Game.reset g).ball.position ∧
    (Game.reset (Game.reset g)).cars.1.position = (Game.reset g).cars.1.position ∧
    (Game.reset (Game.reset g)).cars.1.angle = (Game.reset g).cars.1.angle ∧
    (Game.reset (Game.reset g)).cars.2.position = (Game.reset g).cars.2.position ∧
    (Game.reset (Game.reset g)).cars.2.angle = (Game.reset g).cars.2.angle :=
  ⟨rfl, rfl, rfl, rfl, rfl, rfl, rfl, rfl, rfl, rfl⟩
